import Mathlib

/-!
Shallow embedding of `src/comfy/src/game_loop.rs` (`run_comfy_main_async`):
the Shared Input State mutated by the winit event handlers, the per-event
dispatch arm (`Event::WindowEvent`, lines 190-307), the end-of-frame clear
step (lines 168-175), and the per-frame cycle of the
`Event::MainEventsCleared` arm (lines 131-188).

External collaborators (renderer, egui, the `KeyCode::try_from_winit`
mapping, the update stages) are not defined in the analysed source unit;
they enter the model as parameters, and their observable calls (renderer
resize, `error!` logging, `ControlFlow::Exit`) are recorded in the result
of the dispatch / cycle functions.
-/

namespace Comfy

/-- Logical key codes. `KeyCode` is an enum defined outside the analysed
source unit; only its decidable equality matters here, so it is embedded
as a natural number. -/
abbrev KeyCode := ℕ

/-- Raw platform key codes (`winit::event::VirtualKeyCode`), likewise
embedded as naturals. -/
abbrev VirtualKeyCode := ℕ

/-- `winit::event::MouseButton`. -/
inductive WinitMouseButton where
  | Left
  | Right
  | Middle
  | Other (num : ℕ)
deriving DecidableEq

/-- The engine's logical `MouseButton` (the `quad_button` target of the
match at lines 229-242). -/
inductive MouseButton where
  | Left
  | Right
  | Middle
  | Other (num : ℕ)
deriving DecidableEq

/-- The platform-to-logical button mapping of lines 229-242: left, right
and middle map to themselves, and any other button keeps its
platform-assigned index. -/
def quadButtonOf : WinitMouseButton → MouseButton
  | .Left => .Left
  | .Right => .Right
  | .Middle => .Middle
  | .Other num => .Other num

/-- `winit::event::ElementState`. -/
inductive ElementState where
  | Pressed
  | Released
deriving DecidableEq

/-- `winit::event::MouseScrollDelta`. Scalar float components are
embedded as rationals. -/
inductive MouseScrollDelta where
  | LineDelta (x y : ℚ)
  | PixelDelta (x y : ℚ)
deriving DecidableEq

/-- The subset of `winit::event::WindowEvent` the dispatch arm matches on
(lines 195-306); every unmatched variant falls into `UnhandledEvent`,
mirroring the `_ => {}` arm. The keyboard variant carries
`virtual_keycode : Option<VirtualKeyCode>` exactly as the winit event
does. -/
inductive WindowEvent where
  | KeyboardInput (state : ElementState) (virtual_keycode : Option VirtualKeyCode)
  | CursorMoved (x y : ℚ)
  | MouseInput (state : ElementState) (button : WinitMouseButton)
  | MouseWheel (delta : MouseScrollDelta)
  | Resized (width height : ℕ)
  | ScaleFactorChanged (width height : ℕ)
  | CloseRequested
  | UnhandledEvent
deriving DecidableEq

/-- The `GLOBAL_STATE` input structure: the fields of it that the
analysed source unit reads or writes. Sets are `HashSet`s in the source,
embedded as `Finset`; float pairs as rational pairs. -/
structure GlobalState where
  pressed : Finset KeyCode
  just_pressed : Finset KeyCode
  just_released : Finset KeyCode
  mouse_pressed : Finset MouseButton
  mouse_just_pressed : Finset MouseButton
  mouse_just_released : Finset MouseButton
  mouse_position : ℚ × ℚ
  mouse_wheel : ℚ × ℚ
deriving DecidableEq

/-- Modelled from the spec: `GLOBAL_STATE`'s initialiser is outside the
analysed source unit; the spec states the Shared Input State is created
once at startup with empty sets. -/
def initialGlobalState : GlobalState where
  pressed := ∅
  just_pressed := ∅
  just_released := ∅
  mouse_pressed := ∅
  mouse_just_pressed := ∅
  mouse_just_released := ∅
  mouse_position := (0, 0)
  mouse_wheel := (0, 0)

/-- The observable outcome of dispatching one `WindowEvent`
(lines 190-307): the resulting `GLOBAL_STATE`, the argument of an
`engine.resize` call when one is made, whether `ControlFlow::Exit` was
set, and whether the unsupported-input `error!` log fired. -/
structure DispatchResult where
  state : GlobalState
  resizeCall : Option (ℕ × ℕ)
  exitSet : Bool
  loggedUnsupported : Bool
deriving DecidableEq

/-- The `Event::WindowEvent` arm (lines 190-307). `consumed` is the
return value of the renderer/egui `on_event` hook (line 191, external);
`min_resolution` the pair bound at lines 66-79; `try_from_winit` the
external `KeyCode::try_from_winit` mapping, so that
`virtual_keycode.and_then(KeyCode::try_from_winit)` (lines 200-201)
becomes `virtual_keycode.bind try_from_winit`. -/
def onWindowEvent (consumed : Bool) (min_resolution : ℕ × ℕ)
    (try_from_winit : VirtualKeyCode → Option KeyCode)
    (s : GlobalState) (e : WindowEvent) : DispatchResult :=
  if consumed then
    ⟨s, none, false, false⟩
  else
    match e with
    | .KeyboardInput state virtual_keycode =>
      match virtual_keycode.bind try_from_winit with
      | some keycode =>
        match state with
        | .Pressed =>
          ⟨{ s with
              pressed := insert keycode s.pressed,
              just_pressed := insert keycode s.just_pressed,
              just_released := s.just_released.erase keycode },
            none, false, false⟩
        | .Released =>
          ⟨{ s with
              pressed := s.pressed.erase keycode,
              just_pressed := s.just_pressed.erase keycode,
              just_released := insert keycode s.just_released },
            none, false, false⟩
      | none => ⟨s, none, false, false⟩
    | .CursorMoved x y =>
      ⟨{ s with mouse_position := (x, y) }, none, false, false⟩
    | .MouseInput state button =>
      let quad_button := quadButtonOf button
      match state with
      | .Pressed =>
        ⟨{ s with
            mouse_pressed := insert quad_button s.mouse_pressed,
            mouse_just_pressed := insert quad_button s.mouse_just_pressed },
          none, false, false⟩
      | .Released =>
        ⟨{ s with
            mouse_pressed := s.mouse_pressed.erase quad_button,
            mouse_just_pressed := s.mouse_just_pressed.erase quad_button,
            mouse_just_released := insert quad_button s.mouse_just_released },
          none, false, false⟩
    | .MouseWheel delta =>
      match delta with
      | .LineDelta x y =>
        ⟨{ s with mouse_wheel := (x, y) }, none, false, false⟩
      | .PixelDelta _ _ => ⟨s, none, false, true⟩
    | .Resized width height =>
      if min_resolution.1 < width ∧ min_resolution.2 < height then
        ⟨s, some (width, height), false, false⟩
      else
        ⟨s, none, false, false⟩
    | .ScaleFactorChanged width height =>
      ⟨s, some (width, height), false, false⟩
    | .CloseRequested => ⟨s, none, true, false⟩
    | .UnhandledEvent => ⟨s, none, false, false⟩

/-- The end-of-frame clear step (lines 168-175): empty the four `just_*`
sets and reset `mouse_wheel`; nothing else is touched. -/
def clearStep (s : GlobalState) : GlobalState :=
  { s with
      just_pressed := ∅,
      just_released := ∅,
      mouse_just_pressed := ∅,
      mouse_just_released := ∅,
      mouse_wheel := (0, 0) }

/-- One step of the event loop as it affects `GLOBAL_STATE`: either a
window event is dispatched (with the UI hook's verdict attached), or the
end-of-frame clear runs. -/
inductive LoopStep where
  | event (consumed : Bool) (e : WindowEvent)
  | frameClear

/-- Apply one `LoopStep` to the input state. -/
def stepGlobal (min_resolution : ℕ × ℕ)
    (try_from_winit : VirtualKeyCode → Option KeyCode)
    (s : GlobalState) : LoopStep → GlobalState
  | .event consumed e => (onWindowEvent consumed min_resolution try_from_winit s e).state
  | .frameClear => clearStep s

/-- Run a sequence of loop steps from a starting state. -/
def runSteps (min_resolution : ℕ × ℕ)
    (try_from_winit : VirtualKeyCode → Option KeyCode)
    (s : GlobalState) : List LoopStep → GlobalState
  | [] => s
  | st :: rest => runSteps min_resolution try_from_winit
      (stepGlobal min_resolution try_from_winit s st) rest

/-- Rust `f32::clamp` (line 184): below the lower bound gives the lower
bound, above the upper gives the upper, otherwise the value itself. -/
def rustClamp (x lo hi : ℚ) : ℚ :=
  if x < lo then lo else if hi < x then hi else x

/-- The bootstrap delta of line 122: `let mut delta = 1.0 / 60.0`. -/
def initialDelta : ℚ := 1 / 60

/-- The fields of `EngineState` the analysed source unit reads or
writes inside the loop. -/
structure EngineState where
  quit_flag : Bool
  frame : ℕ
deriving DecidableEq

/-- The observable outcome of one `Event::MainEventsCleared` frame cycle
(lines 131-188). -/
structure FrameCycleResult where
  exitSet : Bool
  engine : EngineState
  global : GlobalState
  time : ℚ
  frame_time : ℚ
  frame_num : ℕ
  delta : ℚ
deriving DecidableEq

/-- The `Event::MainEventsCleared` arm (lines 131-188), in source order:
publish the previous cycle's delta and advance time (137-138); set
`ControlFlow::Exit` if `engine.quit_flag` (141-143) — the source has no
early return here, so every later step still executes; begin the egui
frame and run the update stages (145-166), whose combined effect on
`GLOBAL_STATE` is the external parameter `stages`; increment
`engine.frame` (158); clear the edge-triggered sets (168-175); record
`frame_time` from the pre-sleep elapsed measurement (177) and bump the
diagnostic frame counter (178); after the sleep, clamp the post-sleep
elapsed measurement into `[1/5000, 1/10]` as the next cycle's delta
(183-184). The two elapsed-time measurements are inputs. -/
def frameCycle (stages : GlobalState → GlobalState)
    (engine : EngineState) (g : GlobalState)
    (delta time : ℚ) (frame_num : ℕ)
    (elapsedPreSleep elapsedPostSleep : ℚ) : FrameCycleResult :=
  let time := time + delta
  let exitSet := engine.quit_flag
  let engine := { engine with frame := engine.frame + 1 }
  let g := stages g
  let g := clearStep g
  let frame_time := elapsedPreSleep
  let frame_num := frame_num + 1
  let delta := rustClamp elapsedPostSleep (1 / 5000) (1 / 10)
  { exitSet := exitSet, engine := engine, global := g, time := time,
    frame_time := frame_time, frame_num := frame_num, delta := delta }

/-- C5: the clear step empties the four `just_*` sets and zeroes
`mouse_wheel`, while `pressed`, `mouse_pressed` and `mouse_position` pass
through unchanged; iterating the clear step any number of frames leaves
`pressed` and `mouse_pressed` unchanged, so a held button stays pressed
across all those frames. -/
theorem clearStep_clears_just_sets_only (s : GlobalState) :
    (clearStep s).just_pressed = ∅ ∧
    (clearStep s).just_released = ∅ ∧
    (clearStep s).mouse_just_pressed = ∅ ∧
    (clearStep s).mouse_just_released = ∅ ∧
    (clearStep s).mouse_wheel = (0, 0) ∧
    (clearStep s).pressed = s.pressed ∧
    (clearStep s).mouse_pressed = s.mouse_pressed ∧
    (clearStep s).mouse_position = s.mouse_position ∧
    ∀ n : ℕ, (clearStep^[n] s).pressed = s.pressed ∧
      (clearStep^[n] s).mouse_pressed = s.mouse_pressed := by
  refine ⟨rfl, rfl, rfl, rfl, rfl, rfl, rfl, rfl, ?_⟩
  intro n
  induction n with
  | zero => exact ⟨rfl, rfl⟩
  | succ k ih =>
    rw [Function.iterate_succ_apply']
    exact ⟨ih.1 ▸ rfl, ih.2 ▸ rfl⟩

/-- C7: when the UI hook reports the event consumed, dispatch stops at
once — the input state is returned unchanged, and no resize call, exit
signal or log is produced, for every event kind. -/
theorem consumed_event_changes_nothing (min_resolution : ℕ × ℕ)
    (try_from_winit : VirtualKeyCode → Option KeyCode)
    (s : GlobalState) (e : WindowEvent) :
    onWindowEvent true min_resolution try_from_winit s e =
      ⟨s, none, false, false⟩ := rfl

/-- C8: each line-delta scroll event overwrites `mouse_wheel` with its
own delta, so two scroll events in one frame collapse to last-wins: the
second delta is what the frame observes, never a sum; in particular
(1,0) then (0,2) yields (0,2). -/
theorem mouse_wheel_last_wins (min_resolution : ℕ × ℕ)
    (try_from_winit : VirtualKeyCode → Option KeyCode)
    (s : GlobalState) (x₁ y₁ x₂ y₂ : ℚ) :
    ((onWindowEvent false min_resolution try_from_winit
        (onWindowEvent false min_resolution try_from_winit s
          (.MouseWheel (.LineDelta x₁ y₁))).state
        (.MouseWheel (.LineDelta x₂ y₂))).state).mouse_wheel = (x₂, y₂) ∧
    ((onWindowEvent false min_resolution try_from_winit
        (onWindowEvent false min_resolution try_from_winit s
          (.MouseWheel (.LineDelta 1 0))).state
        (.MouseWheel (.LineDelta 0 2))).state).mouse_wheel = (0, 2) :=
  ⟨rfl, rfl⟩

/-- C9: a keyboard event whose raw keycode does not map to a recognized
logical key (the `and_then` chain at lines 200-201 yields `None`) leaves
the whole dispatch result inert: input state unchanged, no resize, no
exit, for either element state. -/
theorem unmapped_key_dropped (min_resolution : ℕ × ℕ)
    (try_from_winit : VirtualKeyCode → Option KeyCode)
    (s : GlobalState) (st : ElementState) (vk : Option VirtualKeyCode)
    (h : vk.bind try_from_winit = none) :
    onWindowEvent false min_resolution try_from_winit s
      (.KeyboardInput st vk) = ⟨s, none, false, false⟩ := by
  simp [onWindowEvent, h]

/-- Witness for C9 at a concrete input: keycode 999 under the
all-unmapped table is dropped without any state change. -/
theorem unmapped_key_dropped_witness :
    onWindowEvent false (0, 0) (fun _ => none) initialGlobalState
      (.KeyboardInput .Pressed (some 999)) =
      ⟨initialGlobalState, none, false, false⟩ :=
  unmapped_key_dropped (0, 0) (fun _ => none) initialGlobalState
    .Pressed (some 999) rfl

/-- C10: a pixel-delta scroll event is logged as unsupported and
otherwise ignored: the input state (including `mouse_wheel`) is
unchanged, no resize call is made, and no exit is signalled. -/
theorem pixel_delta_scroll_ignored (min_resolution : ℕ × ℕ)
    (try_from_winit : VirtualKeyCode → Option KeyCode)
    (s : GlobalState) (x y : ℚ) :
    onWindowEvent false min_resolution try_from_winit s
      (.MouseWheel (.PixelDelta x y)) = ⟨s, none, false, true⟩ := rfl

/-- C6: a resize event triggers a renderer resize call if and only if
both dimensions strictly exceed the minimum-resolution floor; in every
case the input state is unchanged and no exit or log is produced. -/
theorem resize_gated_by_min_resolution (min_resolution : ℕ × ℕ)
    (try_from_winit : VirtualKeyCode → Option KeyCode)
    (s : GlobalState) (width height : ℕ) :
    ((onWindowEvent false min_resolution try_from_winit s
        (.Resized width height)).resizeCall = some (width, height) ↔
      min_resolution.1 < width ∧ min_resolution.2 < height) ∧
    (onWindowEvent false min_resolution try_from_winit s
        (.Resized width height)).state = s ∧
    (onWindowEvent false min_resolution try_from_winit s
        (.Resized width height)).exitSet = false ∧
    (onWindowEvent false min_resolution try_from_winit s
        (.Resized width height)).loggedUnsupported = false := by
  unfold onWindowEvent
  by_cases h : min_resolution.1 < width ∧ min_resolution.2 < height
  · simp [h]
  · simp [h]

/-- C4: the delta stored for the next cycle is exactly the raw post-sleep
elapsed time clamped by `f32::clamp` into `[1/5000, 1/10]`, hence always
inside that interval for every raw value (0 and 10 seconds included), and
the bootstrap delta 1/60 of the first frame lies inside it too. -/
theorem delta_always_clamped (stages : GlobalState → GlobalState)
    (engine : EngineState) (g : GlobalState) (delta time : ℚ)
    (frame_num : ℕ) (elapsedPreSleep elapsedPostSleep : ℚ) :
    (frameCycle stages engine g delta time frame_num
        elapsedPreSleep elapsedPostSleep).delta =
      rustClamp elapsedPostSleep (1 / 5000) (1 / 10) ∧
    1 / 5000 ≤ (frameCycle stages engine g delta time frame_num
        elapsedPreSleep elapsedPostSleep).delta ∧
    (frameCycle stages engine g delta time frame_num
        elapsedPreSleep elapsedPostSleep).delta ≤ 1 / 10 ∧
    1 / 5000 ≤ initialDelta ∧ initialDelta ≤ 1 / 10 := by
  have hmem : 1 / 5000 ≤ rustClamp elapsedPostSleep (1 / 5000) (1 / 10) ∧
      rustClamp elapsedPostSleep (1 / 5000) (1 / 10) ≤ 1 / 10 := by
    unfold rustClamp
    split_ifs with h₁ h₂
    · norm_num
    · norm_num
    · exact ⟨le_of_not_lt h₁, le_of_not_lt h₂⟩
  exact ⟨rfl, hmem.1, hmem.2, by norm_num [initialDelta],
    by norm_num [initialDelta]⟩

/-- C2 counterexample: the claim says a mouse-button-down removes the
button from `mouse_just_released`, as the key rule does (line 209); but
the `ElementState::Pressed` arm for mouse buttons (lines 247-252) never
touches `mouse_just_released`. Starting from a state whose
`mouse_just_released` holds `Left`, a left-button-down leaves `Left`
still in `mouse_just_released`. -/
theorem mouse_down_keeps_just_released :
    MouseButton.Left ∈
      (onWindowEvent false (0, 0) (fun _ => none)
        { initialGlobalState with
            mouse_just_released := {MouseButton.Left} }
        (.MouseInput .Pressed .Left)).state.mouse_just_released := by
  simp [onWindowEvent]

/-- C2 amended: on mouse-button-down the mapped button is inserted into
`mouse_pressed` and `mouse_just_pressed` while `mouse_just_released` is
left unchanged (unlike the key rule); on mouse-button-up it is removed
from `mouse_pressed` and `mouse_just_pressed` and inserted into
`mouse_just_released`. -/
theorem mouse_button_edge_rule (min_resolution : ℕ × ℕ)
    (try_from_winit : VirtualKeyCode → Option KeyCode)
    (s : GlobalState) (b : WinitMouseButton) :
    (onWindowEvent false min_resolution try_from_winit s
        (.MouseInput .Pressed b)).state =
      { s with
          mouse_pressed := insert (quadButtonOf b) s.mouse_pressed,
          mouse_just_pressed :=
            insert (quadButtonOf b) s.mouse_just_pressed } ∧
    (onWindowEvent false min_resolution try_from_winit s
        (.MouseInput .Released b)).state =
      { s with
          mouse_pressed := s.mouse_pressed.erase (quadButtonOf b),
          mouse_just_pressed :=
            s.mouse_just_pressed.erase (quadButtonOf b),
          mouse_just_released :=
            insert (quadButtonOf b) s.mouse_just_released } :=
  ⟨rfl, rfl⟩

/-- C1 counterexample: the claim says the cycle that observes the quit
flag set skips the remaining steps (frame counter increment, update
stages). The source (lines 141-143) sets `ControlFlow::Exit` without
returning, so with the quit flag set the frame counter is still
incremented and the update stages still run — here an update stage that
moves `mouse_position` to (3,4) is observed to have executed. -/
theorem quit_cycle_skips_nothing :
    (frameCycle (fun g => { g with mouse_position := (3, 4) })
        ⟨true, 0⟩ initialGlobalState initialDelta 0 0 0 0).exitSet = true ∧
    (frameCycle (fun g => { g with mouse_position := (3, 4) })
        ⟨true, 0⟩ initialGlobalState initialDelta 0 0 0 0).engine.frame = 1 ∧
    (frameCycle (fun g => { g with mouse_position := (3, 4) })
        ⟨true, 0⟩ initialGlobalState initialDelta
        0 0 0 0).global.mouse_position = (3, 4) :=
  ⟨rfl, rfl, rfl⟩

/-- C1 amended: a close-request event, and a frame cycle that observes
the quit flag set, each set `ControlFlow::Exit`, so the host loop
terminates and no further cycles run; but within the observing cycle the
remaining steps are not skipped — the frame counter is still incremented
and the UI-frame/update stages and the clear step still execute. -/
theorem quit_flagged_cycle_still_runs (stages : GlobalState → GlobalState)
    (engine : EngineState) (g : GlobalState) (delta time : ℚ)
    (frame_num : ℕ) (elapsedPreSleep elapsedPostSleep : ℚ)
    (min_resolution : ℕ × ℕ)
    (try_from_winit : VirtualKeyCode → Option KeyCode) (s : GlobalState)
    (h : engine.quit_flag = true) :
    (frameCycle stages engine g delta time frame_num
        elapsedPreSleep elapsedPostSleep).exitSet = true ∧
    (frameCycle stages engine g delta time frame_num
        elapsedPreSleep elapsedPostSleep).engine.frame = engine.frame + 1 ∧
    (frameCycle stages engine g delta time frame_num
        elapsedPreSleep elapsedPostSleep).global = clearStep (stages g) ∧
    (onWindowEvent false min_resolution try_from_winit s
        .CloseRequested).exitSet = true :=
  ⟨h, rfl, rfl, rfl⟩

/-- Witness for the amended C1 at a concrete input. -/
theorem quit_flagged_cycle_still_runs_witness :
    (frameCycle (fun g => g) ⟨true, 5⟩ initialGlobalState initialDelta
        0 0 0 0).exitSet = true ∧
    (frameCycle (fun g => g) ⟨true, 5⟩ initialGlobalState initialDelta
        0 0 0 0).engine.frame = 5 + 1 ∧
    (frameCycle (fun g => g) ⟨true, 5⟩ initialGlobalState initialDelta
        0 0 0 0).global = clearStep ((fun g => g) initialGlobalState) ∧
    (onWindowEvent false (0, 0) (fun _ => none) initialGlobalState
        .CloseRequested).exitSet = true :=
  quit_flagged_cycle_still_runs (fun g => g) ⟨true, 5⟩ initialGlobalState
    initialDelta 0 0 0 0 (0, 0) (fun _ => none) initialGlobalState rfl

/-- Helper for C3: one loop step preserves the invariant that every key
in `just_pressed` is also in `pressed`. -/
theorem stepGlobal_keeps_just_pressed_sub (min_resolution : ℕ × ℕ)
    (try_from_winit : VirtualKeyCode → Option KeyCode)
    (s : GlobalState) (st : LoopStep)
    (h : s.just_pressed ⊆ s.pressed) :
    (stepGlobal min_resolution try_from_winit s st).just_pressed ⊆
      (stepGlobal min_resolution try_from_winit s st).pressed := by
  cases st with
  | frameClear => simp [stepGlobal, clearStep]
  | event consumed e =>
    cases consumed with
    | true => simpa [stepGlobal, onWindowEvent] using h
    | false =>
      cases e with
      | KeyboardInput state vk =>
        cases hvk : vk.bind try_from_winit with
        | none => simpa [stepGlobal, onWindowEvent, hvk] using h
        | some keycode =>
          cases state with
          | Pressed =>
            simp only [stepGlobal, onWindowEvent, hvk]
            exact Finset.insert_subset_insert _ h
          | Released =>
            simp only [stepGlobal, onWindowEvent, hvk]
            exact Finset.erase_subset_erase _ h
      | CursorMoved x y => simpa [stepGlobal, onWindowEvent] using h
      | MouseInput state b =>
        cases state <;> simpa [stepGlobal, onWindowEvent] using h
      | MouseWheel d =>
        cases d <;> simpa [stepGlobal, onWindowEvent] using h
      | Resized width height =>
        by_cases hc : min_resolution.1 < width ∧ min_resolution.2 < height <;>
          simpa [stepGlobal, onWindowEvent, hc] using h
      | ScaleFactorChanged width height =>
        simpa [stepGlobal, onWindowEvent] using h
      | CloseRequested => simpa [stepGlobal, onWindowEvent] using h
      | UnhandledEvent => simpa [stepGlobal, onWindowEvent] using h

/-- Helper for C3: running any loop-step sequence preserves the
invariant. -/
theorem runSteps_keeps_just_pressed_sub (min_resolution : ℕ × ℕ)
    (try_from_winit : VirtualKeyCode → Option KeyCode)
    (steps : List LoopStep) (s : GlobalState)
    (h : s.just_pressed ⊆ s.pressed) :
    (runSteps min_resolution try_from_winit s steps).just_pressed ⊆
      (runSteps min_resolution try_from_winit s steps).pressed := by
  induction steps generalizing s with
  | nil => exact h
  | cons st rest ih =>
    exact ih _ (stepGlobal_keeps_just_pressed_sub min_resolution
      try_from_winit s st h)

/-- C3: in every state reachable from the empty initial Shared Input
State by any sequence of dispatched events and frame clear steps, every
key in `just_pressed` is also in `pressed`; and after a clear step no
key is in both `just_pressed` and `just_released`. -/
theorem input_state_invariant (min_resolution : ℕ × ℕ)
    (try_from_winit : VirtualKeyCode → Option KeyCode)
    (steps : List LoopStep) :
    (runSteps min_resolution try_from_winit initialGlobalState
        steps).just_pressed ⊆
      (runSteps min_resolution try_from_winit initialGlobalState
        steps).pressed ∧
    ∀ s : GlobalState,
      (clearStep s).just_pressed ∩ (clearStep s).just_released = ∅ := by
  constructor
  · exact runSteps_keeps_just_pressed_sub min_resolution try_from_winit
      steps initialGlobalState (by simp [initialGlobalState])
  · intro s
    simp [clearStep]

end Comfy
